import Mathlib

/-!
Verification of the tai64 package: TAI64 / TAI64N / TAI64NA timestamp value
types. Two revisions of the code exist, the package module `tai64/__init__.py`
(classes `tai`, `tain`, `taia`, with `tain` and `taia` subclassing `tai`) and
the flat module `tai64.py` (three independent classes). The package revision
is embedded in the root namespace `Tai64`, the flat revision under
`Tai64.flat`; the field records are shared because the stored fields are
identical in both revisions.

Python integers are modelled as `Int` at constructor boundaries (after
`operator.index` / `int()` coercion, which is not modelled) and as `Nat` for
stored, validated fields. Python `bytes` values are `List Nat` with entries
below 256, and `str` values are `List Char`. Exceptions observable from the
module are the explicit `PyError` type.
-/

namespace Tai64

/-- Exceptions observable from the tai64 module: `ValueError` carrying the
message and the offending value, `struct.error` from the fixed-width
unpacker, `binascii.Error` from the hex decoder and `TypeError` from
unsupported order comparisons. -/
inductive PyError where
  | valueError (msg : String) (val : Int)
  | structError (msg : String)
  | binasciiError (msg : String)
  | typeError (msg : String)
deriving DecidableEq

/-- Module constant `EPOCH = 2**62`, the TAI64 label of 1970-01-01 00:00:00 TAI. -/
def EPOCH : Nat := 2 ^ 62

/-- Module constant `MIN = 0`. -/
def MIN : Nat := 0

/-- Module constant `MAX = 2**63 - 1`. -/
def MAX : Nat := 2 ^ 63 - 1

/-- Stored fields of a `tai` instance (`_sec`). -/
structure tai where
  sec : Nat
deriving DecidableEq

/-- Stored fields of a `tain` instance (`_sec`, `_nano`). -/
structure tain where
  sec : Nat
  nano : Nat
deriving DecidableEq

/-- Stored fields of a `taia` instance (`_sec`, `_nano`, `_atto`). -/
structure taia where
  sec : Nat
  nano : Nat
  atto : Nat
deriving DecidableEq

/-- Constructor `tai.__new__`: range-check `MIN <= sec <= MAX`, else
`ValueError('sec must be in 0..2**63-1', sec)`. -/
def tai.new (sec : Int) : Except PyError tai :=
  if (MIN : Int) ≤ sec ∧ sec ≤ (MAX : Int) then .ok ⟨sec.toNat⟩
  else .error (.valueError "sec must be in 0..2**63-1" sec)

/-- Constructor `tain.__new__`: `super().__new__` validates `sec`, then
`0 <= nano <= 999_999_999` is checked. -/
def tain.new (sec nano : Int) : Except PyError tain :=
  match tai.new sec with
  | .error e => .error e
  | .ok t =>
    if 0 ≤ nano ∧ nano ≤ 999999999 then .ok ⟨t.sec, nano.toNat⟩
    else .error (.valueError "nano must be in 0..999_999_999" nano)

/-- Constructor `taia.__new__`: `super().__new__` validates `sec` and `nano`,
then `0 <= atto <= 999_999_999` is checked. -/
def taia.new (sec nano atto : Int) : Except PyError taia :=
  match tain.new sec nano with
  | .error e => .error e
  | .ok t =>
    if 0 ≤ atto ∧ atto ≤ 999999999 then .ok ⟨t.sec, t.nano, atto.toNat⟩
    else .error (.valueError "atto must be in 0..999_999_999" atto)

/-- Big-endian bytes of `n`, fixed width `w` (one field of `struct.pack` with
format `>Q` at width 8 or `>L` at width 4; validated fields always fit, so
the width-overflow failure of `struct.pack` cannot occur and is not
modelled). -/
def beBytes : Nat → Nat → List Nat
  | 0, _ => []
  | w + 1, n => n / 256 ^ w % 256 :: beBytes w n

/-- Big-endian value of a byte string (one field of `struct.unpack`). -/
def bytesToNat (bs : List Nat) : Nat :=
  bs.foldl (fun acc b => acc * 256 + b) 0

/-- Method `tai.pack`: `struct.Struct('>Q').pack(sec)`. -/
def tai.pack (t : tai) : List Nat := beBytes 8 t.sec

/-- Method `tain.pack`: `struct.Struct('>QL').pack(sec, nano)`. -/
def tain.pack (t : tain) : List Nat := beBytes 8 t.sec ++ beBytes 4 t.nano

/-- Method `taia.pack`: `struct.Struct('>QLL').pack(sec, nano, atto)`. -/
def taia.pack (t : taia) : List Nat :=
  beBytes 8 t.sec ++ beBytes 4 t.nano ++ beBytes 4 t.atto

/-- Classmethod `tai.unpack`: `struct.Struct('>Q').unpack` demands a buffer of
exactly 8 bytes (`struct.error` otherwise), then the decoded field goes
through `cls(*args)`, i.e. the validating constructor. -/
def tai.unpack (buf : List Nat) : Except PyError tai :=
  if buf.length = 8 then tai.new (bytesToNat buf)
  else .error (.structError "unpack requires a buffer of 8 bytes")

/-- Classmethod `tain.unpack` with format `>QL`: exactly 12 bytes. -/
def tain.unpack (buf : List Nat) : Except PyError tain :=
  if buf.length = 12 then
    tain.new (bytesToNat (buf.take 8)) (bytesToNat (buf.drop 8))
  else .error (.structError "unpack requires a buffer of 12 bytes")

/-- Classmethod `taia.unpack` with format `>QLL`: exactly 16 bytes. -/
def taia.unpack (buf : List Nat) : Except PyError taia :=
  if buf.length = 16 then
    taia.new (bytesToNat (buf.take 8)) (bytesToNat ((buf.drop 8).take 4))
      (bytesToNat (buf.drop 12))
  else .error (.structError "unpack requires a buffer of 16 bytes")

/-- Value of one hex digit as accepted by `binascii.a2b_hex` (both cases). -/
def hexDigitVal (c : Char) : Option Nat :=
  if '0' ≤ c ∧ c ≤ '9' then some (c.toNat - 48)
  else if 'a' ≤ c ∧ c ≤ 'f' then some (c.toNat - 87)
  else if 'A' ≤ c ∧ c ≤ 'F' then some (c.toNat - 55)
  else none

/-- Pair loop of `binascii.a2b_hex`. -/
def a2bHexPairs : List Char → Except PyError (List Nat)
  | [] => .ok []
  | [_] => .error (.binasciiError "Odd-length string")
  | c1 :: c2 :: rest =>
    match hexDigitVal c1, hexDigitVal c2 with
    | some hi, some lo =>
      match a2bHexPairs rest with
      | .ok bs => .ok ((16 * hi + lo) :: bs)
      | .error e => .error e
    | _, _ => .error (.binasciiError "Non-hexadecimal digit found")

/-- Function `binascii.a2b_hex`: rejects odd length, rejects non-hex digits,
otherwise converts hex text to bytes. -/
def a2bHex (s : List Char) : Except PyError (List Nat) :=
  if s.length % 2 = 1 then .error (.binasciiError "Odd-length string")
  else a2bHexPairs s

/-- Lowercase hex digit character, as produced by `bytes.hex()`. -/
def hexDigitChar (n : Nat) : Char :=
  if n < 10 then Char.ofNat (48 + n) else Char.ofNat (87 + n)

/-- Method `bytes.hex()`: two lowercase hex characters per byte. -/
def bytesToHex (bs : List Nat) : List Char :=
  (bs.map (fun b => [hexDigitChar (b / 16), hexDigitChar (b % 16)])).flatten

/-- Method `tai.hex`: `self.pack().hex()`. -/
def tai.hex (t : tai) : List Char := bytesToHex t.pack

/-- Method `tain.hex`: `self.pack().hex()`. -/
def tain.hex (t : tain) : List Char := bytesToHex t.pack

/-- Method `taia.hex`: `self.pack().hex()`. -/
def taia.hex (t : taia) : List Char := bytesToHex t.pack

/-- Classmethod `tai.from_hex`: slice the first `size*2` characters
(`s[0:16]`, tolerant of longer input), `binascii.a2b_hex`, then `unpack`. -/
def tai.fromHex (s : List Char) : Except PyError tai :=
  match a2bHex (s.take 16) with
  | .ok buf => tai.unpack buf
  | .error e => .error e

/-- Classmethod `tain.from_hex`: first 24 characters. -/
def tain.fromHex (s : List Char) : Except PyError tain :=
  match a2bHex (s.take 24) with
  | .ok buf => tain.unpack buf
  | .error e => .error e

/-- Classmethod `taia.from_hex`: first 32 characters. -/
def taia.fromHex (s : List Char) : Except PyError taia :=
  match a2bHex (s.take 32) with
  | .ok buf => taia.unpack buf
  | .error e => .error e

/-- Field tuple `tai._tuple`. -/
def tai.tuple (t : tai) : List Nat := [t.sec]

/-- Field tuple `tain._tuple`. -/
def tain.tuple (t : tain) : List Nat := [t.sec, t.nano]

/-- Field tuple `taia._tuple`. -/
def taia.tuple (t : taia) : List Nat := [t.sec, t.nano, t.atto]

/-- The six Python comparison operators. `__ne__` is not defined by any of
the classes; `object.__ne__` inverts the `__eq__` result (propagating
`NotImplemented`), which on field tuples is exactly tuple inequality. -/
inductive CmpOp where
  | eq | ne | lt | le | gt | ge
deriving DecidableEq

/-- Swapped operator (`_Py_SwappedOp`), used for the reflected operand. -/
def CmpOp.swap : CmpOp → CmpOp
  | .eq => .eq
  | .ne => .ne
  | .lt => .gt
  | .gt => .lt
  | .le => .ge
  | .ge => .le

/-- Python source text of an operator. -/
def opSymbol : CmpOp → String
  | .lt => "<"
  | .gt => ">"
  | .le => "<="
  | .ge => ">="
  | .ne => "!="
  | .eq => "=="

/-- Lexicographic comparison of two integer tuples, as Python compares
tuples of ints. -/
def lexCmp : List Nat → List Nat → Ordering
  | [], [] => .eq
  | [], _ :: _ => .lt
  | _ :: _, [] => .gt
  | x :: xs, y :: ys =>
    if x < y then .lt else if y < x then .gt else lexCmp xs ys

/-- Truth value of operator `op` given the comparison outcome. -/
def opOfOrdering : CmpOp → Ordering → Bool
  | .eq, o => o = Ordering.eq
  | .ne, o => o ≠ Ordering.eq
  | .lt, o => o = Ordering.lt
  | .le, o => o ≠ Ordering.gt
  | .gt, o => o = Ordering.gt
  | .ge, o => o ≠ Ordering.lt

/-- Result of `op(xs, ys)` on two Python int tuples. -/
def applyOp (op : CmpOp) (xs ys : List Nat) : Bool :=
  opOfOrdering op (lexCmp xs ys)

/-- A Python value appearing as a comparison operand: an instance of one of
the three timestamp classes, or an object of an unrelated type (modelled only
to the extent the claims need: its own comparison methods return
`NotImplemented` against the timestamp classes). -/
inductive PyVal where
  | vtai (t : tai)
  | vtain (t : tain)
  | vtaia (t : taia)
  | vother (id : Nat)
deriving DecidableEq

/-- Timestamp discriminator. -/
def isTimestamp : PyVal → Bool
  | .vother _ => false
  | _ => true

/-- Method `tai._compare`: exact type match on `tai` compares field tuples,
anything else is `NotImplemented` (`none`). -/
def tai.cmpMethod (op : CmpOp) (self : tai) (other : PyVal) : Option Bool :=
  match other with
  | .vtai u => some (applyOp op self.tuple u.tuple)
  | _ => none

/-- Method `tain._compare`: exact `tain` compares tuples, a `tai` operand is
zero-extended with one field (`(*other._tuple(), 0)`). -/
def tain.cmpMethod (op : CmpOp) (self : tain) (other : PyVal) : Option Bool :=
  match other with
  | .vtain u => some (applyOp op self.tuple u.tuple)
  | .vtai u => some (applyOp op self.tuple (u.tuple ++ [0]))
  | _ => none

/-- Method `taia._compare`: exact `taia` compares tuples, a `tain` operand is
zero-extended with one field, a `tai` operand with two. -/
def taia.cmpMethod (op : CmpOp) (self : taia) (other : PyVal) : Option Bool :=
  match other with
  | .vtaia u => some (applyOp op self.tuple u.tuple)
  | .vtain u => some (applyOp op self.tuple (u.tuple ++ [0]))
  | .vtai u => some (applyOp op self.tuple (u.tuple ++ [0, 0]))
  | _ => none

/-- Dispatch of a comparison dunder on the left operand (package revision). -/
def methodOf (op : CmpOp) (v w : PyVal) : Option Bool :=
  match v with
  | .vtai t => tai.cmpMethod op t w
  | .vtain t => tain.cmpMethod op t w
  | .vtaia t => taia.cmpMethod op t w
  | .vother _ => none

/-- Proper-subclass test on operand types in the package revision, where
`taia < tain < tai` in the class hierarchy: true when the type of `w` is a
proper subclass of the type of `v`. -/
def properSubclassOf (w v : PyVal) : Bool :=
  match v, w with
  | .vtai _, .vtain _ => true
  | .vtai _, .vtaia _ => true
  | .vtain _, .vtaia _ => true
  | _, _ => false

/-- CPython rich-comparison dispatch (`do_richcompare`) over the package
classes: when the right operand is of a proper subclass of the left type its
reflected method runs first, otherwise the left method runs first; if both
return `NotImplemented`, `==` and `!=` fall back to object identity (the
operands reaching the fallback here are distinct objects, so `==` is false
and `!=` true) and the order operators raise `TypeError`. -/
def richCompare (op : CmpOp) (v w : PyVal) : Except PyError Bool :=
  let attempts :=
    if properSubclassOf w v then
      (methodOf op.swap w v).orElse (fun _ => methodOf op v w)
    else
      (methodOf op v w).orElse (fun _ => methodOf op.swap w v)
  match attempts with
  | some b => .ok b
  | none =>
    match op with
    | .eq => .ok false
    | .ne => .ok true
    | _ => .error (.typeError (opSymbol op ++ " not supported between instances"))

/-- Decimal rendering of a Python int (nonnegative here). -/
def natStr (n : Nat) : List Char := (Nat.repr n).toList

/-- Python format `{n:>09}` for a nonnegative int: right-aligned in width 9
with fill character `0` (the `0` flag sets the fill since no explicit fill
precedes the `>` alignment). -/
def pad9 (n : Nat) : List Char :=
  let ds := natStr n
  List.replicate (9 - ds.length) '0' ++ ds

/-- Method `tain.__str__`: `f'{sec}.{nano:>09}'` when `nano` is truthy,
otherwise `f'{sec}.0'`. -/
def tain.str (t : tain) : List Char :=
  if t.nano ≠ 0 then natStr t.sec ++ '.' :: pad9 t.nano
  else natStr t.sec ++ ['.', '0']

/-- Method `taia.__str__`: both fractional fields when `atto` is truthy,
else the `tain` rendering. -/
def taia.str (t : taia) : List Char :=
  if t.atto ≠ 0 then natStr t.sec ++ '.' :: (pad9 t.nano ++ pad9 t.atto)
  else if t.nano ≠ 0 then natStr t.sec ++ '.' :: pad9 t.nano
  else natStr t.sec ++ ['.', '0']

/-- Zero-extension of any timestamp operand to the three-field tuple. -/
def ext3 : PyVal → List Nat
  | .vtai t => [t.sec, 0, 0]
  | .vtain t => [t.sec, t.nano, 0]
  | .vtaia t => [t.sec, t.nano, t.atto]
  | .vother _ => []

/-- Order operators, the ones whose unsupported fallback is `TypeError`. -/
def isOrderOp : CmpOp → Bool
  | .lt => true
  | .le => true
  | .gt => true
  | .ge => true
  | _ => false

namespace flat

/-- Constructor `tai.__new__` of the flat revision `tai64.py`: `int(sec)`,
range check, then assignment. Observable behaviour of the check is shared
with the package revision; the message text is the same literal. -/
def tai.new (sec : Int) : Except PyError Tai64.tai :=
  if (MIN : Int) ≤ sec ∧ sec ≤ (MAX : Int) then .ok ⟨sec.toNat⟩
  else .error (.valueError "sec must be in 0..2**63-1" sec)

/-- Constructor `tain.__new__` of the flat revision: `tain` is an independent
class, both checks are inline, and the nano bound is written `0 <= nano <
10**9`. -/
def tain.new (sec nano : Int) : Except PyError Tai64.tain :=
  if ¬((MIN : Int) ≤ sec ∧ sec ≤ (MAX : Int)) then
    .error (.valueError "sec must be in 0..2**63-1" sec)
  else if ¬(0 ≤ nano ∧ nano < 10 ^ 9) then
    .error (.valueError "nano must be in 0..999_999_999" nano)
  else .ok ⟨sec.toNat, nano.toNat⟩

/-- Constructor `taia.__new__` of the flat revision: three inline checks. -/
def taia.new (sec nano atto : Int) : Except PyError Tai64.taia :=
  if ¬((MIN : Int) ≤ sec ∧ sec ≤ (MAX : Int)) then
    .error (.valueError "sec must be in 0..2**63-1" sec)
  else if ¬(0 ≤ nano ∧ nano < 10 ^ 9) then
    .error (.valueError "nano must be in 0..999_999_999" nano)
  else if ¬(0 ≤ atto ∧ atto < 10 ^ 9) then
    .error (.valueError "atto must be in 0..999_999_999" atto)
  else .ok ⟨sec.toNat, nano.toNat, atto.toNat⟩

/-- Method `tai.pack` of the flat revision, same `>Q` struct. -/
def tai.pack (t : Tai64.tai) : List Nat := beBytes 8 t.sec

/-- Method `tain.pack` of the flat revision, same `>QL` struct. -/
def tain.pack (t : Tai64.tain) : List Nat := beBytes 8 t.sec ++ beBytes 4 t.nano

/-- Method `taia.pack` of the flat revision, same `>QLL` struct. -/
def taia.pack (t : Tai64.taia) : List Nat :=
  beBytes 8 t.sec ++ beBytes 4 t.nano ++ beBytes 4 t.atto

/-- Classmethod `tai.unpack` of the flat revision. -/
def tai.unpack (buf : List Nat) : Except PyError Tai64.tai :=
  if buf.length = 8 then tai.new (bytesToNat buf)
  else .error (.structError "unpack requires a buffer of 8 bytes")

/-- Classmethod `tain.unpack` of the flat revision. -/
def tain.unpack (buf : List Nat) : Except PyError Tai64.tain :=
  if buf.length = 12 then
    tain.new (bytesToNat (buf.take 8)) (bytesToNat (buf.drop 8))
  else .error (.structError "unpack requires a buffer of 12 bytes")

/-- Classmethod `taia.unpack` of the flat revision. -/
def taia.unpack (buf : List Nat) : Except PyError Tai64.taia :=
  if buf.length = 16 then
    taia.new (bytesToNat (buf.take 8)) (bytesToNat ((buf.drop 8).take 4))
      (bytesToNat (buf.drop 12))
  else .error (.structError "unpack requires a buffer of 16 bytes")

/-- Method `tai.hex` of the flat revision. -/
def tai.hex (t : Tai64.tai) : List Char := bytesToHex (tai.pack t)

/-- Method `tain.hex` of the flat revision. -/
def tain.hex (t : Tai64.tain) : List Char := bytesToHex (tain.pack t)

/-- Method `taia.hex` of the flat revision. -/
def taia.hex (t : Tai64.taia) : List Char := bytesToHex (taia.pack t)

/-- Scalar comparison `op(self.sec, other.sec)` as written in the five
comparison methods of the flat `tai`. -/
def scalarOp : CmpOp → Nat → Nat → Bool
  | .eq, a, b => a = b
  | .ne, a, b => a ≠ b
  | .lt, a, b => a < b
  | .le, a, b => a ≤ b
  | .gt, a, b => b < a
  | .ge, a, b => b ≤ a

/-- Comparison methods of the flat `tai`: `isinstance(other, tai)` holds only
for `tai` itself (no subclasses exist in the flat revision), and the fields
are compared as scalars. -/
def tai.cmpMethod (op : CmpOp) (self : Tai64.tai) (other : PyVal) : Option Bool :=
  match other with
  | .vtai u => some (scalarOp op self.sec u.sec)
  | _ => none

/-- Comparison methods of the flat `tain`: `isinstance` against `tain` then
`tai`, comparing `(sec, nano)` tuples with the `tai` operand as `(sec, 0)`. -/
def tain.cmpMethod (op : CmpOp) (self : Tai64.tain) (other : PyVal) : Option Bool :=
  match other with
  | .vtain u => some (applyOp op self.tuple u.tuple)
  | .vtai u => some (applyOp op self.tuple [u.sec, 0])
  | _ => none

/-- Comparison methods of the flat `taia`: `isinstance` against `taia`,
`tain`, `tai`, zero-extending the coarser operand to three fields. -/
def taia.cmpMethod (op : CmpOp) (self : Tai64.taia) (other : PyVal) : Option Bool :=
  match other with
  | .vtaia u => some (applyOp op self.tuple u.tuple)
  | .vtain u => some (applyOp op self.tuple [u.sec, u.nano, 0])
  | .vtai u => some (applyOp op self.tuple [u.sec, 0, 0])
  | _ => none

/-- Dispatch of a comparison dunder on the left operand (flat revision). -/
def methodOf (op : CmpOp) (v w : PyVal) : Option Bool :=
  match v with
  | .vtai t => tai.cmpMethod op t w
  | .vtain t => tain.cmpMethod op t w
  | .vtaia t => taia.cmpMethod op t w
  | .vother _ => none

/-- CPython rich-comparison dispatch over the flat classes: no subclass
relations exist, so the left method always runs first. -/
def richCompare (op : CmpOp) (v w : PyVal) : Except PyError Bool :=
  match (methodOf op v w).orElse (fun _ => methodOf op.swap w v) with
  | some b => .ok b
  | none =>
    match op with
    | .eq => .ok false
    | .ne => .ok true
    | _ => .error (.typeError (opSymbol op ++ " not supported between instances"))

end flat

theorem beBytes_length : ∀ w n : Nat, (beBytes w n).length = w
  | 0, _ => rfl
  | w + 1, n => by simp [beBytes, beBytes_length w n]

theorem beBytes_mem_lt (w n : Nat) : ∀ b ∈ beBytes w n, b < 256 := by
  induction w generalizing n with
  | zero => intro b hb; simp [beBytes] at hb
  | succ w ih =>
    intro b hb
    rcases List.mem_cons.mp hb with h | h
    · subst h; exact Nat.mod_lt _ (by norm_num)
    · exact ih n b h

theorem foldl_beBytes (w : Nat) : ∀ n acc : Nat,
    (beBytes w n).foldl (fun acc b => acc * 256 + b) acc = acc * 256 ^ w + n % 256 ^ w := by
  induction w with
  | zero => intro n acc; simp [beBytes, Nat.mod_one]
  | succ w ih =>
    intro n acc
    simp only [beBytes, List.foldl_cons]
    rw [ih]
    have h256 : (256 : Nat) ^ (w + 1) = 256 ^ w * 256 := by ring
    rw [h256, Nat.mod_mul]
    ring

theorem bytesToNat_beBytes (w n : Nat) : bytesToNat (beBytes w n) = n % 256 ^ w := by
  simpa [bytesToNat] using foldl_beBytes w n 0

theorem bytesToNat_beBytes_of_lt (w n : Nat) (h : n < 256 ^ w) :
    bytesToNat (beBytes w n) = n := by
  rw [bytesToNat_beBytes, Nat.mod_eq_of_lt h]

theorem foldl_bytes_acc (ys : List Nat) : ∀ acc : Nat,
    ys.foldl (fun acc b => acc * 256 + b) acc =
      acc * 256 ^ ys.length + ys.foldl (fun acc b => acc * 256 + b) 0 := by
  induction ys with
  | nil => intro acc; simp
  | cons y ys ih =>
    intro acc
    simp only [List.foldl_cons, List.length_cons]
    rw [ih (acc * 256 + y), ih (0 * 256 + y)]
    ring

theorem bytesToNat_append (xs ys : List Nat) :
    bytesToNat (xs ++ ys) = bytesToNat xs * 256 ^ ys.length + bytesToNat ys := by
  unfold bytesToNat
  rw [List.foldl_append, foldl_bytes_acc ys]

theorem bytesToNat_lt (bs : List Nat) (h : ∀ b ∈ bs, b < 256) :
    bytesToNat bs < 256 ^ bs.length := by
  induction bs with
  | nil => simp [bytesToNat]
  | cons b bs ih =>
    have hb : b < 256 := h b (by simp)
    have hrest : bytesToNat bs < 256 ^ bs.length := ih (fun x hx => h x (by simp [hx]))
    have hcons : bytesToNat (b :: bs) = b * 256 ^ bs.length + bytesToNat bs := by
      simpa [bytesToNat] using bytesToNat_append [b] bs
    rw [hcons, List.length_cons]
    calc b * 256 ^ bs.length + bytesToNat bs
        < (b + 1) * 256 ^ bs.length := by rw [Nat.succ_mul]; omega
      _ ≤ 256 * 256 ^ bs.length := Nat.mul_le_mul_right _ (by omega)
      _ = 256 ^ (bs.length + 1) := by ring

theorem hexDigitVal_hexDigitChar : ∀ d < 16, hexDigitVal (hexDigitChar d) = some d := by
  decide

theorem bytesToHex_length (bs : List Nat) : (bytesToHex bs).length = 2 * bs.length := by
  induction bs with
  | nil => rfl
  | cons b bs ih =>
    simp only [bytesToHex, List.map_cons, List.flatten_cons] at ih ⊢
    simp only [List.length_append, List.length_cons, List.length_nil, ih, List.length_map]
    omega

theorem a2bHexPairs_bytesToHex (bs : List Nat) (h : ∀ b ∈ bs, b < 256) :
    a2bHexPairs (bytesToHex bs) = .ok bs := by
  induction bs with
  | nil => rfl
  | cons b bs ih =>
    have hb : b < 256 := h b (by simp)
    have h1 : hexDigitVal (hexDigitChar (b / 16)) = some (b / 16) :=
      hexDigitVal_hexDigitChar _ (by omega)
    have h2 : hexDigitVal (hexDigitChar (b % 16)) = some (b % 16) :=
      hexDigitVal_hexDigitChar _ (Nat.mod_lt _ (by norm_num))
    have hrec := ih (fun x hx => h x (by simp [hx]))
    show a2bHexPairs (hexDigitChar (b / 16) :: hexDigitChar (b % 16) :: bytesToHex bs) = _
    simp only [a2bHexPairs, h1, h2, hrec]
    have : 16 * (b / 16) + b % 16 = b := by omega
    simp [this]

theorem a2bHex_bytesToHex (bs : List Nat) (h : ∀ b ∈ bs, b < 256) :
    a2bHex (bytesToHex bs) = .ok bs := by
  unfold a2bHex
  rw [bytesToHex_length]
  simp only [Nat.mul_mod_right]
  rw [if_neg (by omega)]
  exact a2bHexPairs_bytesToHex bs h

theorem a2bHexPairs_error : ∀ (s : List Char) (e : PyError),
    a2bHexPairs s = .error e → ∃ m, e = PyError.binasciiError m
  | [], e, h => by simp [a2bHexPairs] at h
  | [c], e, h => by
    simp only [a2bHexPairs, Except.error.injEq] at h
    exact ⟨_, h.symm⟩
  | c1 :: c2 :: rest, e, h => by
    simp only [a2bHexPairs] at h
    cases hv1 : hexDigitVal c1 with
    | none => simp [hv1] at h; exact ⟨_, h.symm⟩
    | some hi =>
      cases hv2 : hexDigitVal c2 with
      | none => simp [hv1, hv2] at h; exact ⟨_, h.symm⟩
      | some lo =>
        simp only [hv1, hv2] at h
        cases hr : a2bHexPairs rest with
        | ok bs => simp [hr] at h
        | error e2 =>
          simp only [hr, Except.error.injEq] at h
          subst h
          exact a2bHexPairs_error rest e2 hr

theorem a2bHex_error (s : List Char) (e : PyError) (h : a2bHex s = .error e) :
    ∃ m, e = PyError.binasciiError m := by
  unfold a2bHex at h
  split at h
  · exact ⟨_, (Except.error.inj h).symm⟩
  · exact a2bHexPairs_error s e h

theorem lexCmp_self (xs : List Nat) : lexCmp xs xs = .eq := by
  induction xs with
  | nil => rfl
  | cons x xs ih => simp [lexCmp, ih]

theorem lexCmp_eq_iff (xs : List Nat) : ∀ ys, lexCmp xs ys = .eq ↔ xs = ys := by
  induction xs with
  | nil => intro ys; cases ys <;> simp [lexCmp]
  | cons x xs ih =>
    intro ys
    cases ys with
    | nil => simp [lexCmp]
    | cons y ys =>
      simp only [lexCmp]
      split_ifs with h1 h2
      · constructor
        · intro h; exact absurd h (by decide)
        · intro h; injection h with hx _; omega
      · constructor
        · intro h; exact absurd h (by decide)
        · intro h; injection h with hx _; omega
      · have hxy : x = y := by omega
        subst hxy
        simp [ih ys]

theorem lexCmp_swap (xs : List Nat) : ∀ ys, lexCmp ys xs = (lexCmp xs ys).swap := by
  induction xs with
  | nil => intro ys; cases ys <;> rfl
  | cons x xs ih =>
    intro ys
    cases ys with
    | nil => rfl
    | cons y ys =>
      simp only [lexCmp]
      split_ifs <;>
        first
          | rfl
          | omega
          | exact ih ys

theorem lexCmp_lt_trans (xs : List Nat) : ∀ ys zs, lexCmp xs ys = .lt →
    lexCmp ys zs = .lt → lexCmp xs zs = .lt := by
  induction xs with
  | nil =>
    intro ys zs h1 h2
    cases ys with
    | nil => simp [lexCmp] at h1
    | cons y ys =>
      cases zs with
      | nil => simp [lexCmp] at h2
      | cons z zs => rfl
  | cons x xs ih =>
    intro ys zs h1 h2
    cases ys with
    | nil => simp [lexCmp] at h1
    | cons y ys =>
      cases zs with
      | nil => simp [lexCmp] at h2
      | cons z zs =>
        simp only [lexCmp] at h1 h2 ⊢
        split_ifs at h1 h2 ⊢ <;>
          first
            | rfl
            | omega
            | simp at h1
            | simp at h2
            | exact ih ys zs h1 h2

theorem lexCmp_le_trans (xs ys zs : List Nat) (h1 : lexCmp xs ys ≠ .gt)
    (h2 : lexCmp ys zs ≠ .gt) : lexCmp xs zs ≠ .gt := by
  cases hxy : lexCmp xs ys with
  | gt => exact absurd hxy h1
  | eq => rw [lexCmp_eq_iff] at hxy; subst hxy; exact h2
  | lt =>
    cases hyz : lexCmp ys zs with
    | gt => exact absurd hyz h2
    | eq => rw [lexCmp_eq_iff] at hyz; subst hyz; simp [hxy]
    | lt => simp [lexCmp_lt_trans xs ys zs hxy hyz]

theorem lexCmp_append (xs : List Nat) : ∀ (ys zs1 zs2 : List Nat),
    xs.length = ys.length →
    lexCmp (xs ++ zs1) (ys ++ zs2) = (lexCmp xs ys).then (lexCmp zs1 zs2) := by
  induction xs with
  | nil =>
    intro ys zs1 zs2 h
    have : ys = [] := by cases ys <;> simp_all
    subst this
    simp [lexCmp, Ordering.then]
  | cons x xs ih =>
    intro ys zs1 zs2 h
    cases ys with
    | nil => simp at h
    | cons y ys =>
      simp only [List.cons_append, lexCmp]
      split_ifs with h1 h2 <;>
        simp [Ordering.then, ih ys zs1 zs2 (by simpa using h)]

theorem applyOp_append_zeros (op : CmpOp) (xs ys zs : List Nat)
    (h : xs.length = ys.length) :
    applyOp op (xs ++ zs) (ys ++ zs) = applyOp op xs ys := by
  unfold applyOp
  rw [lexCmp_append xs ys zs zs h, lexCmp_self]
  cases lexCmp xs ys <;> rfl

theorem applyOp_swap (op : CmpOp) (xs ys : List Nat) :
    applyOp op.swap ys xs = applyOp op xs ys := by
  unfold applyOp
  rw [lexCmp_swap xs ys]
  cases op <;> cases lexCmp xs ys <;> rfl

theorem applyOp_lt_true (xs ys : List Nat) :
    applyOp .lt xs ys = true ↔ lexCmp xs ys = .lt := by
  unfold applyOp
  cases lexCmp xs ys <;> simp [opOfOrdering]

theorem applyOp_le_true (xs ys : List Nat) :
    applyOp .le xs ys = true ↔ lexCmp xs ys ≠ .gt := by
  unfold applyOp
  cases lexCmp xs ys <;> simp [opOfOrdering]

theorem rc_tai_tai (op : CmpOp) (t u : tai) :
    richCompare op (.vtai t) (.vtai u) = .ok (applyOp op t.tuple u.tuple) := by
  simp [richCompare, properSubclassOf, methodOf, tai.cmpMethod, Option.orElse]

theorem rc_tain_tain (op : CmpOp) (t u : tain) :
    richCompare op (.vtain t) (.vtain u) = .ok (applyOp op t.tuple u.tuple) := by
  simp [richCompare, properSubclassOf, methodOf, tain.cmpMethod, Option.orElse]

theorem rc_taia_taia (op : CmpOp) (t u : taia) :
    richCompare op (.vtaia t) (.vtaia u) = .ok (applyOp op t.tuple u.tuple) := by
  simp [richCompare, properSubclassOf, methodOf, taia.cmpMethod, Option.orElse]

theorem rc_tai_tain (op : CmpOp) (t : tai) (u : tain) :
    richCompare op (.vtai t) (.vtain u) = .ok (applyOp op (t.tuple ++ [0]) u.tuple) := by
  simp [richCompare, properSubclassOf, methodOf, tain.cmpMethod, Option.orElse, applyOp_swap]

theorem rc_tain_tai (op : CmpOp) (u : tain) (t : tai) :
    richCompare op (.vtain u) (.vtai t) = .ok (applyOp op u.tuple (t.tuple ++ [0])) := by
  simp [richCompare, properSubclassOf, methodOf, tain.cmpMethod, Option.orElse]

theorem rc_tai_taia (op : CmpOp) (t : tai) (a : taia) :
    richCompare op (.vtai t) (.vtaia a) = .ok (applyOp op (t.tuple ++ [0, 0]) a.tuple) := by
  simp [richCompare, properSubclassOf, methodOf, taia.cmpMethod, Option.orElse, applyOp_swap]

theorem rc_taia_tai (op : CmpOp) (a : taia) (t : tai) :
    richCompare op (.vtaia a) (.vtai t) = .ok (applyOp op a.tuple (t.tuple ++ [0, 0])) := by
  simp [richCompare, properSubclassOf, methodOf, taia.cmpMethod, Option.orElse]

theorem rc_tain_taia (op : CmpOp) (u : tain) (a : taia) :
    richCompare op (.vtain u) (.vtaia a) = .ok (applyOp op (u.tuple ++ [0]) a.tuple) := by
  simp [richCompare, properSubclassOf, methodOf, taia.cmpMethod, Option.orElse, applyOp_swap]

theorem rc_taia_tain (op : CmpOp) (a : taia) (u : tain) :
    richCompare op (.vtaia a) (.vtain u) = .ok (applyOp op a.tuple (u.tuple ++ [0])) := by
  simp [richCompare, properSubclassOf, methodOf, taia.cmpMethod, Option.orElse]

theorem richCompare_ts (op : CmpOp) (v w : PyVal) (hv : isTimestamp v = true)
    (hw : isTimestamp w = true) :
    richCompare op v w = .ok (applyOp op (ext3 v) (ext3 w)) := by
  cases v with
  | vother k => simp [isTimestamp] at hv
  | vtai t =>
    cases w with
    | vother k => simp [isTimestamp] at hw
    | vtai u =>
      rw [rc_tai_tai, show ext3 (.vtai t) = t.tuple ++ [0, 0] from rfl,
        show ext3 (.vtai u) = u.tuple ++ [0, 0] from rfl,
        applyOp_append_zeros op t.tuple u.tuple [0, 0] rfl]
    | vtain u =>
      rw [rc_tai_tain, show ext3 (.vtai t) = (t.tuple ++ [0]) ++ [0] from rfl,
        show ext3 (.vtain u) = u.tuple ++ [0] from rfl,
        applyOp_append_zeros op (t.tuple ++ [0]) u.tuple [0] rfl]
    | vtaia a =>
      rw [rc_tai_taia, show ext3 (.vtai t) = t.tuple ++ [0, 0] from rfl,
        show ext3 (.vtaia a) = a.tuple from rfl,
        show a.tuple = a.tuple ++ ([] : List Nat) from by simp,
        show t.tuple ++ [0, 0] = (t.tuple ++ [0, 0]) ++ ([] : List Nat) from by simp,
        applyOp_append_zeros op (t.tuple ++ [0, 0]) a.tuple [] rfl]
  | vtain u =>
    cases w with
    | vother k => simp [isTimestamp] at hw
    | vtai t =>
      rw [rc_tain_tai, show ext3 (.vtain u) = u.tuple ++ [0] from rfl,
        show ext3 (.vtai t) = (t.tuple ++ [0]) ++ [0] from rfl,
        applyOp_append_zeros op u.tuple (t.tuple ++ [0]) [0] rfl]
    | vtain u2 =>
      rw [rc_tain_tain, show ext3 (.vtain u) = u.tuple ++ [0] from rfl,
        show ext3 (.vtain u2) = u2.tuple ++ [0] from rfl,
        applyOp_append_zeros op u.tuple u2.tuple [0] rfl]
    | vtaia a =>
      rw [rc_tain_taia, show ext3 (.vtain u) = u.tuple ++ [0] from rfl,
        show ext3 (.vtaia a) = a.tuple from rfl,
        show a.tuple = a.tuple ++ ([] : List Nat) from by simp,
        show u.tuple ++ [0] = (u.tuple ++ [0]) ++ ([] : List Nat) from by simp,
        applyOp_append_zeros op (u.tuple ++ [0]) a.tuple [] rfl]
  | vtaia a =>
    cases w with
    | vother k => simp [isTimestamp] at hw
    | vtai t =>
      rw [rc_taia_tai, show ext3 (.vtaia a) = a.tuple from rfl,
        show ext3 (.vtai t) = t.tuple ++ [0, 0] from rfl,
        show a.tuple = a.tuple ++ ([] : List Nat) from by simp,
        show t.tuple ++ [0, 0] = (t.tuple ++ [0, 0]) ++ ([] : List Nat) from by simp,
        applyOp_append_zeros op a.tuple (t.tuple ++ [0, 0]) [] rfl]
    | vtain u =>
      rw [rc_taia_tain, show ext3 (.vtaia a) = a.tuple from rfl,
        show ext3 (.vtain u) = u.tuple ++ [0] from rfl,
        show a.tuple = a.tuple ++ ([] : List Nat) from by simp,
        show u.tuple ++ [0] = (u.tuple ++ [0]) ++ ([] : List Nat) from by simp,
        applyOp_append_zeros op a.tuple (u.tuple ++ [0]) [] rfl]
    | vtaia a2 =>
      rw [rc_taia_taia, show ext3 (.vtaia a) = a.tuple from rfl,
        show ext3 (.vtaia a2) = a2.tuple from rfl]

theorem scalarOp_applyOp (op : CmpOp) (a b : Nat) :
    flat.scalarOp op a b = applyOp op [a] [b] := by
  cases op <;>
    simp only [flat.scalarOp, applyOp, lexCmp, opOfOrdering] <;>
    split_ifs <;>
    simp_all <;>
    omega

theorem flat_rc_tai_tai (op : CmpOp) (t u : tai) :
    flat.richCompare op (.vtai t) (.vtai u) = .ok (applyOp op t.tuple u.tuple) := by
  simp [flat.richCompare, flat.methodOf, flat.tai.cmpMethod, Option.orElse,
    scalarOp_applyOp, tai.tuple]

theorem flat_rc_tain_tain (op : CmpOp) (t u : tain) :
    flat.richCompare op (.vtain t) (.vtain u) = .ok (applyOp op t.tuple u.tuple) := by
  simp [flat.richCompare, flat.methodOf, flat.tain.cmpMethod, Option.orElse]

theorem flat_rc_taia_taia (op : CmpOp) (t u : taia) :
    flat.richCompare op (.vtaia t) (.vtaia u) = .ok (applyOp op t.tuple u.tuple) := by
  simp [flat.richCompare, flat.methodOf, flat.taia.cmpMethod, Option.orElse]

theorem flat_rc_tai_tain (op : CmpOp) (t : tai) (u : tain) :
    flat.richCompare op (.vtai t) (.vtain u) = .ok (applyOp op (t.tuple ++ [0]) u.tuple) := by
  simp only [flat.richCompare, flat.methodOf, flat.tai.cmpMethod, flat.tain.cmpMethod,
    Option.orElse]
  rw [show (t.tuple ++ [0] : List Nat) = [t.sec, 0] from rfl, ← applyOp_swap op [t.sec, 0] u.tuple]

theorem flat_rc_tain_tai (op : CmpOp) (u : tain) (t : tai) :
    flat.richCompare op (.vtain u) (.vtai t) = .ok (applyOp op u.tuple (t.tuple ++ [0])) := by
  simp [flat.richCompare, flat.methodOf, flat.tain.cmpMethod, Option.orElse, tai.tuple]

theorem flat_rc_tai_taia (op : CmpOp) (t : tai) (a : taia) :
    flat.richCompare op (.vtai t) (.vtaia a) = .ok (applyOp op (t.tuple ++ [0, 0]) a.tuple) := by
  simp only [flat.richCompare, flat.methodOf, flat.tai.cmpMethod, flat.taia.cmpMethod,
    Option.orElse]
  rw [show (t.tuple ++ [0, 0] : List Nat) = [t.sec, 0, 0] from rfl,
    ← applyOp_swap op [t.sec, 0, 0] a.tuple]

theorem flat_rc_taia_tai (op : CmpOp) (a : taia) (t : tai) :
    flat.richCompare op (.vtaia a) (.vtai t) = .ok (applyOp op a.tuple (t.tuple ++ [0, 0])) := by
  simp [flat.richCompare, flat.methodOf, flat.taia.cmpMethod, Option.orElse, tai.tuple]

theorem flat_rc_tain_taia (op : CmpOp) (u : tain) (a : taia) :
    flat.richCompare op (.vtain u) (.vtaia a) = .ok (applyOp op (u.tuple ++ [0]) a.tuple) := by
  simp only [flat.richCompare, flat.methodOf, flat.tain.cmpMethod, flat.taia.cmpMethod,
    Option.orElse]
  rw [show (u.tuple ++ [0] : List Nat) = [u.sec, u.nano, 0] from rfl,
    ← applyOp_swap op [u.sec, u.nano, 0] a.tuple]

theorem flat_rc_taia_tain (op : CmpOp) (a : taia) (u : tain) :
    flat.richCompare op (.vtaia a) (.vtain u) = .ok (applyOp op a.tuple (u.tuple ++ [0])) := by
  simp [flat.richCompare, flat.methodOf, flat.taia.cmpMethod, Option.orElse, tain.tuple]

theorem flat_richCompare_ts (op : CmpOp) (v w : PyVal) (hv : isTimestamp v = true)
    (hw : isTimestamp w = true) :
    flat.richCompare op v w = richCompare op v w := by
  cases v with
  | vother k => simp [isTimestamp] at hv
  | vtai t =>
    cases w with
    | vother k => simp [isTimestamp] at hw
    | vtai u => rw [flat_rc_tai_tai, rc_tai_tai]
    | vtain u => rw [flat_rc_tai_tain, rc_tai_tain]
    | vtaia a => rw [flat_rc_tai_taia, rc_tai_taia]
  | vtain u =>
    cases w with
    | vother k => simp [isTimestamp] at hw
    | vtai t => rw [flat_rc_tain_tai, rc_tain_tai]
    | vtain u2 => rw [flat_rc_tain_tain, rc_tain_tain]
    | vtaia a => rw [flat_rc_tain_taia, rc_tain_taia]
  | vtaia a =>
    cases w with
    | vother k => simp [isTimestamp] at hw
    | vtai t => rw [flat_rc_taia_tai, rc_taia_tai]
    | vtain u2 => rw [flat_rc_taia_tain, rc_taia_tain]
    | vtaia a2 => rw [flat_rc_taia_taia, rc_taia_taia]

theorem tai_new_natCast (s : Nat) (h : s ≤ MAX) : tai.new s = .ok ⟨s⟩ := by
  unfold tai.new
  rw [if_pos]
  · simp
  · refine ⟨?_, ?_⟩
    · simp [MIN]
    · exact_mod_cast h

theorem tain_new_natCast (s n : Nat) (hs : s ≤ MAX) (hn : n ≤ 999999999) :
    tain.new s n = .ok ⟨s, n⟩ := by
  unfold tain.new
  rw [tai_new_natCast s hs]
  have h1 : 0 ≤ (n : Int) ∧ (n : Int) ≤ 999999999 := ⟨by positivity, by exact_mod_cast hn⟩
  simp [h1]

theorem taia_new_natCast (s n a : Nat) (hs : s ≤ MAX) (hn : n ≤ 999999999)
    (ha : a ≤ 999999999) : taia.new s n a = .ok ⟨s, n, a⟩ := by
  unfold taia.new
  rw [tain_new_natCast s n hs hn]
  have h1 : 0 ≤ (a : Int) ∧ (a : Int) ≤ 999999999 := ⟨by positivity, by exact_mod_cast ha⟩
  simp [h1]

theorem sec_bound (s : Nat) (h : s ≤ MAX) : s < 256 ^ 8 := by
  have h1 : MAX = 9223372036854775807 := by norm_num [MAX]
  have h2 : (256 : Nat) ^ 8 = 18446744073709551616 := by norm_num
  omega

theorem frac_bound (n : Nat) (h : n ≤ 999999999) : n < 256 ^ 4 := by
  have h2 : (256 : Nat) ^ 4 = 4294967296 := by norm_num
  omega

theorem take_append_len (xs ys : List Nat) (k : Nat) (h : xs.length = k) :
    (xs ++ ys).take k = xs := by
  subst h; exact List.take_left xs ys

theorem drop_append_len (xs ys : List Nat) (k : Nat) (h : xs.length = k) :
    (xs ++ ys).drop k = ys := by
  subst h; exact List.drop_left xs ys

theorem tai_unpack_pack (t : tai) (ht : t.sec ≤ MAX) : tai.unpack t.pack = .ok t := by
  unfold tai.unpack tai.pack
  rw [if_pos (beBytes_length 8 t.sec)]
  rw [bytesToNat_beBytes_of_lt 8 t.sec (sec_bound t.sec ht)]
  exact tai_new_natCast t.sec ht

theorem tain_unpack_pack (n : tain) (hs : n.sec ≤ MAX) (hn : n.nano ≤ 999999999) :
    tain.unpack n.pack = .ok n := by
  unfold tain.unpack tain.pack
  have hlen : (beBytes 8 n.sec ++ beBytes 4 n.nano).length = 12 := by
    simp [beBytes_length]
  rw [if_pos hlen]
  rw [take_append_len _ _ 8 (beBytes_length 8 n.sec),
    drop_append_len _ _ 8 (beBytes_length 8 n.sec),
    bytesToNat_beBytes_of_lt 8 n.sec (sec_bound n.sec hs),
    bytesToNat_beBytes_of_lt 4 n.nano (frac_bound n.nano hn)]
  exact tain_new_natCast n.sec n.nano hs hn

theorem taia_unpack_pack (a : taia) (hs : a.sec ≤ MAX) (hn : a.nano ≤ 999999999)
    (ha : a.atto ≤ 999999999) : taia.unpack a.pack = .ok a := by
  unfold taia.unpack taia.pack
  have hlen : (beBytes 8 a.sec ++ beBytes 4 a.nano ++ beBytes 4 a.atto).length = 16 := by
    simp [beBytes_length]
  rw [if_pos hlen]
  have htake : (beBytes 8 a.sec ++ beBytes 4 a.nano ++ beBytes 4 a.atto).take 8 =
      beBytes 8 a.sec := by
    rw [List.append_assoc]
    exact take_append_len _ _ 8 (beBytes_length 8 a.sec)
  have hdrop8 : (beBytes 8 a.sec ++ beBytes 4 a.nano ++ beBytes 4 a.atto).drop 8 =
      beBytes 4 a.nano ++ beBytes 4 a.atto := by
    rw [List.append_assoc]
    exact drop_append_len _ _ 8 (beBytes_length 8 a.sec)
  have hmid : ((beBytes 8 a.sec ++ beBytes 4 a.nano ++ beBytes 4 a.atto).drop 8).take 4 =
      beBytes 4 a.nano := by
    rw [hdrop8]
    exact take_append_len _ _ 4 (beBytes_length 4 a.nano)
  have hdrop12 : (beBytes 8 a.sec ++ beBytes 4 a.nano ++ beBytes 4 a.atto).drop 12 =
      beBytes 4 a.atto := by
    exact drop_append_len _ _ 12 (by simp [beBytes_length])
  rw [htake, hmid, hdrop12,
    bytesToNat_beBytes_of_lt 8 a.sec (sec_bound a.sec hs),
    bytesToNat_beBytes_of_lt 4 a.nano (frac_bound a.nano hn),
    bytesToNat_beBytes_of_lt 4 a.atto (frac_bound a.atto ha)]
  exact taia_new_natCast a.sec a.nano a.atto hs hn ha

theorem tai_pack_length (t : tai) : t.pack.length = 8 := beBytes_length 8 t.sec

theorem tain_pack_length (n : tain) : n.pack.length = 12 := by
  simp [tain.pack, beBytes_length]

theorem taia_pack_length (a : taia) : a.pack.length = 16 := by
  simp [taia.pack, beBytes_length]

theorem tai_pack_mem (t : tai) : ∀ b ∈ t.pack, b < 256 := beBytes_mem_lt 8 t.sec

theorem tain_pack_mem (n : tain) : ∀ b ∈ n.pack, b < 256 := by
  intro b hb
  rcases List.mem_append.mp hb with h | h
  · exact beBytes_mem_lt 8 n.sec b h
  · exact beBytes_mem_lt 4 n.nano b h

theorem taia_pack_mem (a : taia) : ∀ b ∈ a.pack, b < 256 := by
  intro b hb
  rcases List.mem_append.mp hb with h | h
  · rcases List.mem_append.mp h with h2 | h2
    · exact beBytes_mem_lt 8 a.sec b h2
    · exact beBytes_mem_lt 4 a.nano b h2
  · exact beBytes_mem_lt 4 a.atto b h

theorem tai_new_out (s : Int) (h : s < 0 ∨ 9223372036854775807 < s) :
    tai.new s = .error (.valueError "sec must be in 0..2**63-1" s) := by
  unfold tai.new
  have hM : (MAX : Int) = 9223372036854775807 := by norm_num [MAX]
  have hm : (MIN : Int) = 0 := by norm_num [MIN]
  rw [if_neg (by rw [hM, hm]; omega)]

theorem tain_new_nano_out (s : Nat) (hs : s ≤ MAX) (n : Int)
    (h : n < 0 ∨ 999999999 < n) :
    tain.new s n = .error (.valueError "nano must be in 0..999_999_999" n) := by
  unfold tain.new
  rw [tai_new_natCast s hs]
  have hc : ¬(0 ≤ n ∧ n ≤ 999999999) := by omega
  simp [hc]

theorem taia_new_nano_out (s : Nat) (hs : s ≤ MAX) (n : Int)
    (hn : n < 0 ∨ 999999999 < n) (a : Int) :
    taia.new s n a = .error (.valueError "nano must be in 0..999_999_999" n) := by
  unfold taia.new
  rw [tain_new_nano_out s hs n hn]

theorem taia_new_atto_out (s nn : Nat) (hs : s ≤ MAX) (hn : nn ≤ 999999999) (a : Int)
    (ha : a < 0 ∨ 999999999 < a) :
    taia.new s nn a = .error (.valueError "atto must be in 0..999_999_999" a) := by
  unfold taia.new
  rw [tain_new_natCast s nn hs hn]
  have hc : ¬(0 ≤ a ∧ a ≤ 999999999) := by omega
  simp [hc]

theorem tain_unpack_parts (s nn : Nat) (hs : s < 256 ^ 8) (hn : nn < 256 ^ 4) :
    tain.unpack (beBytes 8 s ++ beBytes 4 nn) = tain.new s nn := by
  unfold tain.unpack
  rw [if_pos (by simp [beBytes_length]), take_append_len _ _ 8 (beBytes_length 8 s),
    drop_append_len _ _ 8 (beBytes_length 8 s),
    bytesToNat_beBytes_of_lt 8 s hs, bytesToNat_beBytes_of_lt 4 nn hn]

theorem taia_unpack_parts (s nn aa : Nat) (hs : s < 256 ^ 8) (hn : nn < 256 ^ 4)
    (ha : aa < 256 ^ 4) :
    taia.unpack (beBytes 8 s ++ beBytes 4 nn ++ beBytes 4 aa) = taia.new s nn aa := by
  unfold taia.unpack
  have htake : (beBytes 8 s ++ beBytes 4 nn ++ beBytes 4 aa).take 8 = beBytes 8 s := by
    rw [List.append_assoc]
    exact take_append_len _ _ 8 (beBytes_length 8 s)
  have hdrop8 : (beBytes 8 s ++ beBytes 4 nn ++ beBytes 4 aa).drop 8 =
      beBytes 4 nn ++ beBytes 4 aa := by
    rw [List.append_assoc]
    exact drop_append_len _ _ 8 (beBytes_length 8 s)
  have hmid : ((beBytes 8 s ++ beBytes 4 nn ++ beBytes 4 aa).drop 8).take 4 =
      beBytes 4 nn := by
    rw [hdrop8]
    exact take_append_len _ _ 4 (beBytes_length 4 nn)
  have hdrop12 : (beBytes 8 s ++ beBytes 4 nn ++ beBytes 4 aa).drop 12 = beBytes 4 aa :=
    drop_append_len _ _ 12 (by simp [beBytes_length])
  rw [if_pos (by simp [beBytes_length]), htake, hmid, hdrop12,
    bytesToNat_beBytes_of_lt 8 s hs, bytesToNat_beBytes_of_lt 4 nn hn,
    bytesToNat_beBytes_of_lt 4 aa ha]

theorem tai_unpack_topbit (b0 : Nat) (rest : List Nat) (hlen : rest.length = 7)
    (hb : b0 < 256) (htop : 128 ≤ b0) (hrest : ∀ b ∈ rest, b < 256) :
    tai.unpack (b0 :: rest) = tai.new (bytesToNat (b0 :: rest))
    ∧ tai.unpack (b0 :: rest) =
        .error (.valueError "sec must be in 0..2**63-1" (bytesToNat (b0 :: rest))) := by
  have hlen8 : (b0 :: rest).length = 8 := by simp [hlen]
  have hcons : bytesToNat (b0 :: rest) = b0 * 256 ^ 7 + bytesToNat rest := by
    simpa [bytesToNat, hlen] using bytesToNat_append [b0] rest
  have hbigN : 9223372036854775807 < bytesToNat (b0 :: rest) := by
    have h1 : (2 : Nat) ^ 63 ≤ bytesToNat (b0 :: rest) := by
      rw [hcons]
      calc (2 : Nat) ^ 63 = 128 * 256 ^ 7 := by norm_num
        _ ≤ b0 * 256 ^ 7 := Nat.mul_le_mul_right _ htop
        _ ≤ b0 * 256 ^ 7 + bytesToNat rest := Nat.le_add_right _ _
    have h2 : (2 : Nat) ^ 63 = 9223372036854775808 := by norm_num
    omega
  have hbig : (9223372036854775807 : Int) < (bytesToNat (b0 :: rest) : Int) := by
    exact_mod_cast hbigN
  have e1 : tai.unpack (b0 :: rest) = tai.new (bytesToNat (b0 :: rest)) := by
    unfold tai.unpack
    rw [if_pos hlen8]
  exact ⟨e1, e1.trans (tai_new_out _ (Or.inr hbig))⟩

theorem tai_fromHex_hex (t : tai) (ht : t.sec ≤ MAX) : tai.fromHex t.hex = .ok t := by
  unfold tai.fromHex tai.hex
  have hlen : (bytesToHex t.pack).length = 16 := by
    rw [bytesToHex_length, tai_pack_length]
  have htake : (bytesToHex t.pack).take 16 = bytesToHex t.pack := by
    rw [← hlen]; exact List.take_length (l := _)
  rw [htake, a2bHex_bytesToHex t.pack (tai_pack_mem t)]
  exact tai_unpack_pack t ht

theorem tain_fromHex_hex (n : tain) (hs : n.sec ≤ MAX) (hn : n.nano ≤ 999999999) :
    tain.fromHex n.hex = .ok n := by
  unfold tain.fromHex tain.hex
  have hlen : (bytesToHex n.pack).length = 24 := by
    rw [bytesToHex_length, tain_pack_length]
  have htake : (bytesToHex n.pack).take 24 = bytesToHex n.pack := by
    rw [← hlen]; exact List.take_length (l := _)
  rw [htake, a2bHex_bytesToHex n.pack (tain_pack_mem n)]
  exact tain_unpack_pack n hs hn

theorem taia_fromHex_hex (a : taia) (hs : a.sec ≤ MAX) (hn : a.nano ≤ 999999999)
    (ha : a.atto ≤ 999999999) : taia.fromHex a.hex = .ok a := by
  unfold taia.fromHex taia.hex
  have hlen : (bytesToHex a.pack).length = 32 := by
    rw [bytesToHex_length, taia_pack_length]
  have htake : (bytesToHex a.pack).take 32 = bytesToHex a.pack := by
    rw [← hlen]; exact List.take_length (l := _)
  rw [htake, a2bHex_bytesToHex a.pack (taia_pack_mem a)]
  exact taia_unpack_pack a hs hn ha

/-- C1: cross-precision comparison is zero-extension followed by lexicographic
tuple comparison. For every sec, nano, atto, each of the six comparison
operators between a finer and a coarser instance returns exactly the result of
the same operator applied to the zero-extended field tuples (a `tai` operand
padded with one zero field against `tain` and two against `taia`, a `tain`
operand padded with one zero field against `taia`); in particular
`tai(s) == tain(s, 0) == taia(s, 0, 0)` and `tai(s) != tain(s, 1)`. -/
theorem cross_precision_zero_extension :
    (∀ (op : CmpOp) (t : tai) (n : tain),
        richCompare op (.vtain n) (.vtai t) = .ok (applyOp op n.tuple (t.tuple ++ [0]))
      ∧ richCompare op (.vtai t) (.vtain n) = .ok (applyOp op (t.tuple ++ [0]) n.tuple))
    ∧ (∀ (op : CmpOp) (t : tai) (a : taia),
        richCompare op (.vtaia a) (.vtai t) = .ok (applyOp op a.tuple (t.tuple ++ [0, 0]))
      ∧ richCompare op (.vtai t) (.vtaia a) = .ok (applyOp op (t.tuple ++ [0, 0]) a.tuple))
    ∧ (∀ (op : CmpOp) (n : tain) (a : taia),
        richCompare op (.vtaia a) (.vtain n) = .ok (applyOp op a.tuple (n.tuple ++ [0]))
      ∧ richCompare op (.vtain n) (.vtaia a) = .ok (applyOp op (n.tuple ++ [0]) a.tuple))
    ∧ (∀ s : Nat,
        richCompare .eq (.vtai ⟨s⟩) (.vtain ⟨s, 0⟩) = .ok true
      ∧ richCompare .eq (.vtain ⟨s, 0⟩) (.vtaia ⟨s, 0, 0⟩) = .ok true
      ∧ richCompare .eq (.vtai ⟨s⟩) (.vtaia ⟨s, 0, 0⟩) = .ok true
      ∧ richCompare .ne (.vtai ⟨s⟩) (.vtain ⟨s, 1⟩) = .ok true) := by
  refine ⟨fun op t n => ⟨rc_tain_tai op n t, rc_tai_tain op t n⟩,
    fun op t a => ⟨rc_taia_tai op a t, rc_tai_taia op t a⟩,
    fun op n a => ⟨rc_taia_tain op a n, rc_tain_taia op n a⟩,
    fun s => ⟨?_, ?_, ?_, ?_⟩⟩
  · rw [rc_tai_tain]
    simp [applyOp, tai.tuple, tain.tuple, lexCmp_self, opOfOrdering]
  · rw [rc_tain_taia]
    simp [applyOp, tain.tuple, taia.tuple, lexCmp_self, opOfOrdering]
  · rw [rc_tai_taia]
    simp [applyOp, tai.tuple, taia.tuple, lexCmp_self, opOfOrdering]
  · rw [rc_tai_tain]
    simp [applyOp, tai.tuple, tain.tuple, lexCmp, opOfOrdering]

/-- C2: round-trip of the binary and hex codecs. For every valid instance,
`unpack (pack x) = x` and `from_hex (hex x) = x`; `pack` is exactly 8, 12 or
16 bytes of big-endian unsigned fields, and `hex` is the lowercase hex
rendering of `pack`, exactly twice as many characters. -/
theorem codec_round_trip (t : tai) (n : tain) (a : taia)
    (ht : t.sec ≤ MAX) (hns : n.sec ≤ MAX) (hnn : n.nano ≤ 999999999)
    (has : a.sec ≤ MAX) (han : a.nano ≤ 999999999) (haa : a.atto ≤ 999999999) :
    (tai.unpack t.pack = .ok t ∧ tai.fromHex t.hex = .ok t
      ∧ t.pack.length = 8 ∧ t.hex = bytesToHex t.pack ∧ t.hex.length = 16)
    ∧ (tain.unpack n.pack = .ok n ∧ tain.fromHex n.hex = .ok n
      ∧ n.pack.length = 12 ∧ n.hex = bytesToHex n.pack ∧ n.hex.length = 24)
    ∧ (taia.unpack a.pack = .ok a ∧ taia.fromHex a.hex = .ok a
      ∧ a.pack.length = 16 ∧ a.hex = bytesToHex a.pack ∧ a.hex.length = 32) := by
  refine ⟨⟨tai_unpack_pack t ht, tai_fromHex_hex t ht, tai_pack_length t, rfl, ?_⟩,
    ⟨tain_unpack_pack n hns hnn, tain_fromHex_hex n hns hnn, tain_pack_length n, rfl, ?_⟩,
    ⟨taia_unpack_pack a has han haa, taia_fromHex_hex a has han haa,
      taia_pack_length a, rfl, ?_⟩⟩
  · rw [show t.hex = bytesToHex t.pack from rfl, bytesToHex_length, tai_pack_length]
  · rw [show n.hex = bytesToHex n.pack from rfl, bytesToHex_length, tain_pack_length]
  · rw [show a.hex = bytesToHex a.pack from rfl, bytesToHex_length, taia_pack_length]

/-- Witness for C2 at the concrete instances `tai(EPOCH)`,
`tain(EPOCH, 999999999)` and `taia(2^62 - 1, 0, 1)`. -/
theorem codec_round_trip_witness :
    tai.unpack (tai.pack ⟨EPOCH⟩) = .ok ⟨EPOCH⟩
    ∧ tain.fromHex (tain.hex ⟨EPOCH, 999999999⟩) = .ok ⟨EPOCH, 999999999⟩
    ∧ taia.fromHex (taia.hex ⟨2 ^ 62 - 1, 0, 1⟩) = .ok ⟨2 ^ 62 - 1, 0, 1⟩ := by
  have h := codec_round_trip ⟨EPOCH⟩ ⟨EPOCH, 999999999⟩ ⟨2 ^ 62 - 1, 0, 1⟩
    (by norm_num [EPOCH, MAX]) (by norm_num [EPOCH, MAX]) (by norm_num)
    (by norm_num [MAX]) (by norm_num) (by norm_num)
  exact ⟨h.1.1, h.2.1.2.1, h.2.2.2.1⟩

/-- C3: range validation is uniform and informative. Construction with
`sec = -1` or `sec = 2^63` for each of the three types, or `nano`/`atto` at
`-1` or `1_000_000_000`, raises a `ValueError` naming the offending field and
carrying the offending value; and decoding raises the identical range error
for out-of-range field values: `tai.unpack` of 8 bytes with the top bit set,
and `tain`/`taia.unpack` of a 4-byte fractional field above 999_999_999,
fail exactly as direct construction of the decoded values does. -/
theorem range_validation_uniform :
    (tai.new (-1) = .error (.valueError "sec must be in 0..2**63-1" (-1))
      ∧ tai.new (2 ^ 63) = .error (.valueError "sec must be in 0..2**63-1" (2 ^ 63))
      ∧ tain.new (-1) 0 = .error (.valueError "sec must be in 0..2**63-1" (-1))
      ∧ tain.new (2 ^ 63) 0 = .error (.valueError "sec must be in 0..2**63-1" (2 ^ 63))
      ∧ tain.new 0 (-1) = .error (.valueError "nano must be in 0..999_999_999" (-1))
      ∧ tain.new 0 1000000000 =
          .error (.valueError "nano must be in 0..999_999_999" 1000000000)
      ∧ taia.new (-1) 0 0 = .error (.valueError "sec must be in 0..2**63-1" (-1))
      ∧ taia.new (2 ^ 63) 0 0 = .error (.valueError "sec must be in 0..2**63-1" (2 ^ 63))
      ∧ taia.new 0 (-1) 0 = .error (.valueError "nano must be in 0..999_999_999" (-1))
      ∧ taia.new 0 1000000000 0 =
          .error (.valueError "nano must be in 0..999_999_999" 1000000000)
      ∧ taia.new 0 0 (-1) = .error (.valueError "atto must be in 0..999_999_999" (-1))
      ∧ taia.new 0 0 1000000000 =
          .error (.valueError "atto must be in 0..999_999_999" 1000000000))
    ∧ (∀ (b0 : Nat) (rest : List Nat), rest.length = 7 → b0 < 256 → 128 ≤ b0 →
        (∀ b ∈ rest, b < 256) →
        tai.unpack (b0 :: rest) = tai.new (bytesToNat (b0 :: rest))
        ∧ tai.unpack (b0 :: rest) =
            .error (.valueError "sec must be in 0..2**63-1" (bytesToNat (b0 :: rest))))
    ∧ (∀ s nn : Nat, s ≤ MAX → 999999999 < nn → nn < 256 ^ 4 →
        tain.unpack (beBytes 8 s ++ beBytes 4 nn) = tain.new s nn
        ∧ tain.unpack (beBytes 8 s ++ beBytes 4 nn) =
            .error (.valueError "nano must be in 0..999_999_999" nn))
    ∧ (∀ s nn aa : Nat, s ≤ MAX → 999999999 < nn → nn < 256 ^ 4 → aa < 256 ^ 4 →
        taia.unpack (beBytes 8 s ++ beBytes 4 nn ++ beBytes 4 aa) =
          .error (.valueError "nano must be in 0..999_999_999" nn))
    ∧ (∀ s nn aa : Nat, s ≤ MAX → nn ≤ 999999999 → 999999999 < aa → aa < 256 ^ 4 →
        taia.unpack (beBytes 8 s ++ beBytes 4 nn ++ beBytes 4 aa) =
          .error (.valueError "atto must be in 0..999_999_999" aa)) := by
  refine ⟨⟨rfl, rfl, rfl, rfl, rfl, rfl, rfl, rfl, rfl, rfl, rfl, rfl⟩,
    tai_unpack_topbit, ?_, ?_, ?_⟩
  · intro s nn hs h1 h2
    have e1 := tain_unpack_parts s nn (sec_bound s hs) h2
    exact ⟨e1, e1.trans (tain_new_nano_out s hs nn (Or.inr (by exact_mod_cast h1)))⟩
  · intro s nn aa hs h1 h2 h3
    exact (taia_unpack_parts s nn aa (sec_bound s hs) h2 h3).trans
      (taia_new_nano_out s hs nn (Or.inr (by exact_mod_cast h1)) aa)
  · intro s nn aa hs h1 h2 h3
    exact (taia_unpack_parts s nn aa (sec_bound s hs) (frac_bound nn h1) h3).trans
      (taia_new_atto_out s nn hs h1 aa (Or.inr (by exact_mod_cast h2)))

/-- Witness for C3: decoding 8 bytes with the top bit set, and 12- and
16-byte buffers with out-of-range fractional fields, at concrete inputs. -/
theorem range_validation_uniform_witness :
    tai.unpack [128, 0, 0, 0, 0, 0, 0, 0] =
      .error (.valueError "sec must be in 0..2**63-1" (bytesToNat [128, 0, 0, 0, 0, 0, 0, 0]))
    ∧ tain.unpack (beBytes 8 0 ++ beBytes 4 1000000000) =
      .error (.valueError "nano must be in 0..999_999_999" 1000000000)
    ∧ taia.unpack (beBytes 8 0 ++ beBytes 4 0 ++ beBytes 4 1000000000) =
      .error (.valueError "atto must be in 0..999_999_999" 1000000000) :=
  ⟨(range_validation_uniform.2.1 128 [0, 0, 0, 0, 0, 0, 0] rfl (by norm_num)
      (by norm_num) (by decide)).2,
    (range_validation_uniform.2.2.1 0 1000000000 (by norm_num [MAX]) (by norm_num)
      (by norm_num)).2,
    range_validation_uniform.2.2.2.2 0 0 1000000000 (by norm_num [MAX]) (by norm_num)
      (by norm_num) (by norm_num)⟩

/-- C4: order structure of the shared comparison protocol. Same-type
comparison is lexicographic on the field tuples (stated for the strict order
as the iff the spec gives, and for all six operators through the
zero-extension normal form), the combined cross-type relation on timestamp
values is transitive, and comparing `tai` against `taia` directly with two
zero fields agrees with going through the `tain` one-field zero-extension. -/
theorem comparison_total_order :
    (∀ s1 s2 : Nat,
        richCompare .lt (.vtai ⟨s1⟩) (.vtai ⟨s2⟩) = .ok (decide (s1 < s2)))
    ∧ (∀ s1 n1 s2 n2 : Nat,
        richCompare .lt (.vtain ⟨s1, n1⟩) (.vtain ⟨s2, n2⟩) =
          .ok (decide (s1 < s2 ∨ (s1 = s2 ∧ n1 < n2))))
    ∧ (∀ s1 n1 a1 s2 n2 a2 : Nat,
        richCompare .lt (.vtaia ⟨s1, n1, a1⟩) (.vtaia ⟨s2, n2, a2⟩) =
          .ok (decide (s1 < s2 ∨ (s1 = s2 ∧ (n1 < n2 ∨ (n1 = n2 ∧ a1 < a2))))))
    ∧ (∀ (op : CmpOp) (v w : PyVal), isTimestamp v = true → isTimestamp w = true →
        richCompare op v w = .ok (applyOp op (ext3 v) (ext3 w)))
    ∧ (∀ v w x : PyVal, isTimestamp v = true → isTimestamp w = true →
        isTimestamp x = true → richCompare .lt v w = .ok true →
        richCompare .lt w x = .ok true → richCompare .lt v x = .ok true)
    ∧ (∀ v w x : PyVal, isTimestamp v = true → isTimestamp w = true →
        isTimestamp x = true → richCompare .le v w = .ok true →
        richCompare .le w x = .ok true → richCompare .le v x = .ok true)
    ∧ (∀ (op : CmpOp) (t : tai) (a : taia),
        richCompare op (.vtai t) (.vtaia a) =
          richCompare op (.vtain ⟨t.sec, 0⟩) (.vtaia a)
      ∧ richCompare op (.vtaia a) (.vtai t) =
          richCompare op (.vtaia a) (.vtain ⟨t.sec, 0⟩)) := by
  refine ⟨?_, ?_, ?_, richCompare_ts, ?_, ?_, ?_⟩
  · intro s1 s2
    rw [rc_tai_tai]
    simp only [tai.tuple, applyOp, lexCmp, opOfOrdering]
    split_ifs <;> simp_all
  · intro s1 n1 s2 n2
    rw [rc_tain_tain]
    simp only [tain.tuple, applyOp, lexCmp, opOfOrdering]
    split_ifs <;> simp_all <;> omega
  · intro s1 n1 a1 s2 n2 a2
    rw [rc_taia_taia]
    simp only [taia.tuple, applyOp, lexCmp, opOfOrdering]
    split_ifs <;> simp_all <;> omega
  · intro v w x hv hw hx h1 h2
    rw [richCompare_ts .lt v w hv hw] at h1
    rw [richCompare_ts .lt w x hw hx] at h2
    rw [richCompare_ts .lt v x hv hx]
    have l1 := (applyOp_lt_true _ _).mp (Except.ok.inj h1)
    have l2 := (applyOp_lt_true _ _).mp (Except.ok.inj h2)
    rw [(applyOp_lt_true _ _).mpr (lexCmp_lt_trans _ _ _ l1 l2)]
  · intro v w x hv hw hx h1 h2
    rw [richCompare_ts .le v w hv hw] at h1
    rw [richCompare_ts .le w x hw hx] at h2
    rw [richCompare_ts .le v x hv hx]
    have l1 := (applyOp_le_true _ _).mp (Except.ok.inj h1)
    have l2 := (applyOp_le_true _ _).mp (Except.ok.inj h2)
    rw [(applyOp_le_true _ _).mpr (lexCmp_le_trans _ _ _ l1 l2)]
  · intro op t a
    constructor
    · rw [rc_tai_taia, rc_tain_taia]
      rfl
    · rw [rc_taia_tai, rc_taia_tain]
      rfl

/-- Witness for C4: transitivity applied at concrete values across the three
types, for both the strict and the reflexive order. -/
theorem comparison_total_order_witness :
    richCompare .lt (.vtai ⟨3⟩) (.vtaia ⟨5, 0, 1⟩) = .ok true
    ∧ richCompare .le (.vtai ⟨3⟩) (.vtaia ⟨5, 0, 1⟩) = .ok true :=
  ⟨comparison_total_order.2.2.2.2.1 (.vtai ⟨3⟩) (.vtain ⟨4, 2⟩) (.vtaia ⟨5, 0, 1⟩)
      rfl rfl rfl rfl rfl,
    comparison_total_order.2.2.2.2.2.1 (.vtai ⟨3⟩) (.vtain ⟨4, 2⟩) (.vtaia ⟨5, 0, 1⟩)
      rfl rfl rfl rfl rfl⟩

/-- C5: literal encoding vectors pinning the big-endian layout and the epoch
constant `EPOCH = 2^62`. -/
theorem literal_encoding_vectors :
    EPOCH = 2 ^ 62
    ∧ tai.hex ⟨2 ^ 62 - 1⟩ = "3fffffffffffffff".toList
    ∧ tai.hex ⟨EPOCH⟩ = "4000000000000000".toList
    ∧ tain.hex ⟨EPOCH, 999999999⟩ = "40000000000000003b9ac9ff".toList
    ∧ taia.hex ⟨2 ^ 62 - 1, 0, 1⟩ = "3fffffffffffffff0000000000000001".toList :=
  ⟨rfl, rfl, rfl, rfl, rfl⟩

/-- C6 counterexample: comparing a timestamp with an unrelated operand for
equality does not signal an unsupported-comparison condition; the
`NotImplemented` results make the dispatch fall back to identity and the
expression silently evaluates to a boolean (`==` to False, `!=` to True). -/
theorem unrelated_comparison_counterexample :
    richCompare .eq (.vtai ⟨0⟩) (.vother 0) = .ok false
    ∧ richCompare .ne (.vtai ⟨0⟩) (.vother 0) = .ok true :=
  ⟨rfl, rfl⟩

/-- C6 amended: between a timestamp and an unrelated operand, each of the
four order comparisons raises `TypeError` in either operand order, while
`==` silently returns False and `!=` True through the identity fallback. -/
theorem unrelated_comparison_behavior (v : PyVal) (k : Nat) (op : CmpOp)
    (hv : isTimestamp v = true) (hop : isOrderOp op = true) :
    richCompare op v (.vother k) =
      .error (.typeError (opSymbol op ++ " not supported between instances"))
    ∧ richCompare op (.vother k) v =
      .error (.typeError (opSymbol op ++ " not supported between instances"))
    ∧ richCompare .eq v (.vother k) = .ok false
    ∧ richCompare .eq (.vother k) v = .ok false
    ∧ richCompare .ne v (.vother k) = .ok true
    ∧ richCompare .ne (.vother k) v = .ok true := by
  cases v with
  | vother m => simp [isTimestamp] at hv
  | vtai t =>
    cases op <;>
      first
        | exact ⟨rfl, rfl, rfl, rfl, rfl, rfl⟩
        | simp [isOrderOp] at hop
  | vtain t =>
    cases op <;>
      first
        | exact ⟨rfl, rfl, rfl, rfl, rfl, rfl⟩
        | simp [isOrderOp] at hop
  | vtaia t =>
    cases op <;>
      first
        | exact ⟨rfl, rfl, rfl, rfl, rfl, rfl⟩
        | simp [isOrderOp] at hop

/-- Witness for the C6 amended theorem at `tai(0)` against an unrelated
object, for the `<` operator. -/
theorem unrelated_comparison_behavior_witness :
    richCompare .lt (.vtai ⟨0⟩) (.vother 0) =
      .error (.typeError (opSymbol .lt ++ " not supported between instances"))
    ∧ richCompare .eq (.vtai ⟨0⟩) (.vother 0) = .ok false :=
  ⟨(unrelated_comparison_behavior (.vtai ⟨0⟩) 0 .lt rfl rfl).1,
    (unrelated_comparison_behavior (.vtai ⟨0⟩) 0 .lt rfl rfl).2.2.1⟩

/-- C7 counterexample: a 9-byte buffer is at least the 8-byte width, but
`tai.unpack` raises `struct.error` instead of decoding the leading 8 bytes
(`struct.Struct.unpack` demands an exact-length buffer). -/
theorem unpack_exact_width_counterexample :
    tai.unpack [0, 0, 0, 0, 0, 0, 0, 0, 0] =
      .error (.structError "unpack requires a buffer of 8 bytes")
    ∧ tai.unpack [0, 0, 0, 0, 0, 0, 0, 0, 0] ≠ .ok ⟨0⟩ :=
  ⟨rfl, fun h => Except.noConfusion h⟩

/-- C7 amended: `unpack` accepts exactly the fixed width. A buffer whose
length differs from the width, shorter or longer, fails with the
`struct.error` decode-format error, distinct from any range `ValueError`;
a buffer of exactly the width decodes the big-endian fields and
range-validates them through the constructor. -/
theorem unpack_exact_width (buf : List Nat) :
    (buf.length ≠ 8 →
      tai.unpack buf = .error (.structError "unpack requires a buffer of 8 bytes"))
    ∧ (buf.length = 8 → tai.unpack buf = tai.new (bytesToNat buf))
    ∧ (buf.length ≠ 12 →
      tain.unpack buf = .error (.structError "unpack requires a buffer of 12 bytes"))
    ∧ (buf.length = 12 →
      tain.unpack buf = tain.new (bytesToNat (buf.take 8)) (bytesToNat (buf.drop 8)))
    ∧ (buf.length ≠ 16 →
      taia.unpack buf = .error (.structError "unpack requires a buffer of 16 bytes"))
    ∧ (buf.length = 16 →
      taia.unpack buf = taia.new (bytesToNat (buf.take 8))
        (bytesToNat ((buf.drop 8).take 4)) (bytesToNat (buf.drop 12)))
    ∧ (∀ m msg val, PyError.structError m ≠ PyError.valueError msg val) := by
  refine ⟨fun h => ?_, fun h => ?_, fun h => ?_, fun h => ?_, fun h => ?_, fun h => ?_,
    fun m msg val h => PyError.noConfusion h⟩
  · unfold tai.unpack; rw [if_neg h]
  · unfold tai.unpack; rw [if_pos h]
  · unfold tain.unpack; rw [if_neg h]
  · unfold tain.unpack; rw [if_pos h]
  · unfold taia.unpack; rw [if_neg h]
  · unfold taia.unpack; rw [if_pos h]

/-- Witness for the C7 amended theorem: a 9-byte buffer fails for `tain`,
and an exact 8-byte buffer decodes through the constructor for `tai`. -/
theorem unpack_exact_width_witness :
    tain.unpack [0, 0, 0, 0, 0, 0, 0, 0, 0] =
      .error (.structError "unpack requires a buffer of 12 bytes")
    ∧ tai.unpack [0, 0, 0, 0, 0, 0, 0, 0] =
        tai.new (bytesToNat [0, 0, 0, 0, 0, 0, 0, 0]) :=
  ⟨(unpack_exact_width [0, 0, 0, 0, 0, 0, 0, 0, 0]).2.2.1 (by norm_num),
    (unpack_exact_width [0, 0, 0, 0, 0, 0, 0, 0]).2.1 rfl⟩

/-- C8: hex decode is prefix-tolerant. `from_hex` consumes only the first
2×width characters, ignoring any trailing ones; on that window it is the
hex-to-bytes conversion followed by `unpack`; malformed hex inside the
window fails with the `binascii` decoding error. -/
theorem hex_decode_window (s : List Char) :
    (tai.fromHex s = tai.fromHex (s.take 16)
      ∧ (16 ≤ s.length → ∀ extra, tai.fromHex (s ++ extra) = tai.fromHex s)
      ∧ (∀ bs, a2bHex (s.take 16) = .ok bs → tai.fromHex s = tai.unpack bs)
      ∧ (∀ e, a2bHex (s.take 16) = .error e →
          tai.fromHex s = .error e ∧ ∃ m, e = PyError.binasciiError m))
    ∧ (tain.fromHex s = tain.fromHex (s.take 24)
      ∧ (24 ≤ s.length → ∀ extra, tain.fromHex (s ++ extra) = tain.fromHex s)
      ∧ (∀ bs, a2bHex (s.take 24) = .ok bs → tain.fromHex s = tain.unpack bs)
      ∧ (∀ e, a2bHex (s.take 24) = .error e →
          tain.fromHex s = .error e ∧ ∃ m, e = PyError.binasciiError m))
    ∧ (taia.fromHex s = taia.fromHex (s.take 32)
      ∧ (32 ≤ s.length → ∀ extra, taia.fromHex (s ++ extra) = taia.fromHex s)
      ∧ (∀ bs, a2bHex (s.take 32) = .ok bs → taia.fromHex s = taia.unpack bs)
      ∧ (∀ e, a2bHex (s.take 32) = .error e →
          taia.fromHex s = .error e ∧ ∃ m, e = PyError.binasciiError m)) := by
  refine ⟨?_, ?_, ?_⟩ <;> refine ⟨?_, ?_, ?_, ?_⟩
  · simp [tai.fromHex, List.take_take]
  · intro h extra
    simp [tai.fromHex, List.take_append_of_le_length h]
  · intro bs h; simp [tai.fromHex, h]
  · intro e h; exact ⟨by simp [tai.fromHex, h], a2bHex_error _ e h⟩
  · simp [tain.fromHex, List.take_take]
  · intro h extra
    simp [tain.fromHex, List.take_append_of_le_length h]
  · intro bs h; simp [tain.fromHex, h]
  · intro e h; exact ⟨by simp [tain.fromHex, h], a2bHex_error _ e h⟩
  · simp [taia.fromHex, List.take_take]
  · intro h extra
    simp [taia.fromHex, List.take_append_of_le_length h]
  · intro bs h; simp [taia.fromHex, h]
  · intro e h; exact ⟨by simp [taia.fromHex, h], a2bHex_error _ e h⟩

/-- Witness for C8: a 16-character hex string with trailing garbage decodes
like the bare window, the window bytes go through `unpack`, and a malformed
window is a `binascii` error. -/
theorem hex_decode_window_witness :
    tai.fromHex ("4000000000000000".toList ++ "zz".toList) =
      tai.fromHex "4000000000000000".toList
    ∧ tai.fromHex "4000000000000000zz".toList = tai.unpack [64, 0, 0, 0, 0, 0, 0, 0]
    ∧ tai.fromHex "zz00000000000000".toList =
        .error (.binasciiError "Non-hexadecimal digit found") :=
  ⟨(hex_decode_window "4000000000000000".toList).1.2.1 (by norm_num) "zz".toList,
    (hex_decode_window "4000000000000000zz".toList).1.2.2.1 [64, 0, 0, 0, 0, 0, 0, 0] rfl,
    ((hex_decode_window "zz00000000000000".toList).1.2.2.2
      (.binasciiError "Non-hexadecimal digit found") rfl).1⟩

/-- C9: canonical string rendering zero-pads fractional fields to 9 digits:
`str(tain(sec, nano))` is the seconds, a dot, and the nanoseconds zero-padded
to 9 digits whenever nano is nonzero (so `str(tain(0, 1)) = "0.000000001"`),
`str(taia.max)` renders both fractional fields fully zero-padded, and a
whole-zero fraction renders as "sec.0". -/
theorem string_rendering :
    (∀ s nn : Nat, nn ≠ 0 → tain.str ⟨s, nn⟩ = natStr s ++ '.' :: pad9 nn)
    ∧ tain.str ⟨0, 1⟩ = "0.000000001".toList
    ∧ taia.str ⟨MAX, 999999999, 999999999⟩ =
        "9223372036854775807.999999999999999999".toList
    ∧ (∀ s : Nat, tain.str ⟨s, 0⟩ = natStr s ++ ['.', '0']
        ∧ taia.str ⟨s, 0, 0⟩ = natStr s ++ ['.', '0']) := by
  refine ⟨?_, rfl, rfl, ?_⟩
  · intro s nn h
    simp [tain.str, h]
  · intro s
    exact ⟨by simp [tain.str], by simp [taia.str]⟩

/-- Witness for C9 at `tain(7, 12)`. -/
theorem string_rendering_witness :
    tain.str ⟨7, 12⟩ = natStr 7 ++ '.' :: pad9 12 :=
  string_rendering.1 7 12 (by norm_num)

/-- C10: the two source revisions agree on all observable behaviour the claim
names: the constructors return the same results on every integer input,
`pack`, `hex`, `unpack` coincide as functions, and all six comparison
operators agree on timestamp operands of any of the nine type pairings. -/
theorem revisions_agree :
    (∀ s : Int, flat.tai.new s = tai.new s)
    ∧ (∀ s n : Int, flat.tain.new s n = tain.new s n)
    ∧ (∀ s n a : Int, flat.taia.new s n a = taia.new s n a)
    ∧ (∀ t : tai, flat.tai.pack t = t.pack ∧ flat.tai.hex t = t.hex)
    ∧ (∀ n : tain, flat.tain.pack n = n.pack ∧ flat.tain.hex n = n.hex)
    ∧ (∀ a : taia, flat.taia.pack a = a.pack ∧ flat.taia.hex a = a.hex)
    ∧ (∀ buf : List Nat, flat.tai.unpack buf = tai.unpack buf
        ∧ flat.tain.unpack buf = tain.unpack buf
        ∧ flat.taia.unpack buf = taia.unpack buf)
    ∧ (∀ (op : CmpOp) (v w : PyVal), isTimestamp v = true → isTimestamp w = true →
        flat.richCompare op v w = richCompare op v w) := by
  have h10 : (10 : Int) ^ 9 = 1000000000 := by norm_num
  have hTainNew : ∀ s n : Int, flat.tain.new s n = tain.new s n := by
    intro s n
    unfold flat.tain.new tain.new tai.new
    split_ifs <;> simp_all <;> omega
  have hTaiaNew : ∀ s n a : Int, flat.taia.new s n a = taia.new s n a := by
    intro s n a
    unfold flat.taia.new taia.new tain.new tai.new
    split_ifs <;> simp_all <;> omega
  refine ⟨fun s => rfl, hTainNew, hTaiaNew, fun t => ⟨rfl, rfl⟩, fun n => ⟨rfl, rfl⟩,
    fun a => ⟨rfl, rfl⟩, ?_, flat_richCompare_ts⟩
  intro buf
  refine ⟨rfl, ?_, ?_⟩
  · unfold flat.tain.unpack tain.unpack
    split_ifs
    · exact hTainNew _ _
    · rfl
  · unfold flat.taia.unpack taia.unpack
    split_ifs
    · exact hTaiaNew _ _ _
    · rfl

/-- Witness for C10: the comparison agreement at a concrete `tai` versus
`tain` pair. -/
theorem revisions_agree_witness :
    flat.richCompare .lt (.vtai ⟨1⟩) (.vtain ⟨2, 3⟩) =
      richCompare .lt (.vtai ⟨1⟩) (.vtain ⟨2, 3⟩) :=
  revisions_agree.2.2.2.2.2.2.2 .lt (.vtai ⟨1⟩) (.vtain ⟨2, 3⟩) rfl rfl

end Tai64
